import Mathlib

/-!
# Verification of the Augmented-Analytics statistical core

Shallow embedding of the repository's statistical core:

* `src/cleaner.py` (`clean_dataframe`): missing-value imputation;
* `src/profiler.py` (`profile_dataframe`): numeric/categorical profiling and
  IQR outlier counting;
* `src/app/orchestrator.py` (`Orchestrator.run_what_if_scenario`): the what-if
  engine (validation, modification application, five summary statistics,
  percentage changes, correlation-based impact estimation, delegation to the
  external analyzer).

Modelling conventions:

* A dataset is an ordered list of named columns; a column is either numeric
  (`List (Option ℚ)`, `none` standing for a missing entry / NaN) or
  categorical (`List (Option String)`).
* Machine floats are modelled by exact rationals.  Standard deviation and
  Pearson correlation involve a square root, so they live in `ℝ`
  (`Real.sqrt`); everything else is computable over `ℚ`.
* pandas' division of a nonzero float by zero yields `inf`/`nan` without
  raising; the rational model uses Lean's `q / 0 = 0` convention at those
  spots.  Both behaviours are "silently produce a number"; the theorems below
  only rely on the absence of an error/flag, never on the particular value.
* A Python exception that escapes a function is modelled by an `Option`
  result (`none` = the call raised), and the orchestrator's external
  analyzer call by an explicit `Except String String` parameter.
-/

/-- Drop the missing entries of a column, keeping order
(pandas `skipna` / `dropna` behaviour). -/
def dropNone {α : Type} (l : List (Option α)) : List α :=
  l.filterMap id

/-- Sort a list of rationals ascending (pandas sorts values before taking
quantiles). -/
def sortQ (l : List ℚ) : List ℚ :=
  l.insertionSort (· ≤ ·)

/-- Arithmetic mean of a plain list, `sum / len` (`0` on the empty list,
standing for the NaN a float library would produce). -/
def meanList (v : List ℚ) : ℚ :=
  v.sum / v.length

/-- Sample variance with Bessel's correction (`ddof = 1`), the square of the
`std` reported by `pandas.Series.std` / `describe`. -/
def svarList (v : List ℚ) : ℚ :=
  (v.map (fun x => (x - meanList v) ^ 2)).sum / ((v.length : ℚ) - 1)

/-- Linear-interpolation quantile on a list of values, as
`pandas.Series.quantile(q)` computes it: with `h = q * (n - 1)`,
`lo = ⌊h⌋`, the result is `s[lo] + (h - lo) * (s[lo+1] - s[lo])` over the
sorted values `s`. -/
def quantileQ (l : List ℚ) (q : ℚ) : ℚ :=
  let s := sortQ l
  let n := s.length
  if n = 0 then 0 else
    let h : ℚ := q * ((n : ℚ) - 1)
    let lo : ℕ := (Int.floor h).toNat
    let frac : ℚ := h - (lo : ℚ)
    s.getD lo 0 + frac * (s.getD (lo + 1) (s.getD lo 0) - s.getD lo 0)

/-- Mean of a numeric column, missing entries excluded
(`Series.mean`, `skipna = True`). -/
def qmean (l : List (Option ℚ)) : ℚ :=
  meanList (dropNone l)

/-- Median of a numeric column: the `0.5` linear-interpolation quantile of
the non-missing values (`Series.median`). -/
def qmedian (l : List (Option ℚ)) : ℚ :=
  quantileQ (dropNone l) (1 / 2)

/-- Sample variance of a numeric column, missing entries excluded; the
source's `Series.std()` is `Real.sqrt` of this. -/
def qsvar (l : List (Option ℚ)) : ℚ :=
  svarList (dropNone l)

/-- Minimum of a numeric column, missing entries excluded (`Series.min`). -/
def qmin (l : List (Option ℚ)) : ℚ :=
  (sortQ (dropNone l)).headD 0

/-- Maximum of a numeric column, missing entries excluded (`Series.max`). -/
def qmax (l : List (Option ℚ)) : ℚ :=
  (sortQ (dropNone l)).getLastD 0

/-- Count of the values of a numeric column lying strictly outside the IQR
fences, as in `profile_dataframe` / `InferenceToolSet.detect_outliers`:
`Q1, Q3` by linear interpolation, `IQR = Q3 - Q1`, a value is an outlier iff
`x < Q1 - 1.5 * IQR` or `x > Q3 + 1.5 * IQR`.  NaN comparisons are false in
pandas, so missing entries are never counted. -/
def outlierCount (l : List (Option ℚ)) : ℕ :=
  let v := dropNone l
  let q1 := quantileQ v (1 / 4)
  let q3 := quantileQ v (3 / 4)
  let iqr := q3 - q1
  v.countP (fun x => decide (x < q1 - 3 / 2 * iqr) || decide (q3 + 3 / 2 * iqr < x))

/-- Largest element of a list of naturals (`0` on the empty list). -/
def natMaxList : List ℕ → ℕ
  | [] => 0
  | a :: as => max a (natMaxList as)

/-- Least string of a list, `none` on the empty list. -/
def strMinList : List String → Option String
  | [] => none
  | a :: as =>
    match strMinList as with
    | none => some a
    | some b => some (min a b)

/-- `Series.mode()[0]` on the non-missing values of a categorical column:
among the values attaining the maximal occurrence count, the least one
(pandas sorts the modes ascending, and `[0]` takes the first).  `none` when
there are no values at all — in the source `mode()[0]` then raises a
`KeyError`. -/
def modeCat (l : List String) : Option String :=
  strMinList
    (l.dedup.filter (fun v => l.count v = natMaxList (l.dedup.map (fun w => l.count w))))

/-! ## The data model -/

/-- A column of a dataset: numeric (`number` dtype) or categorical
(`object`/`category` dtype).  `none` entries are missing values. -/
inductive ColData : Type where
  | num (vals : List (Option ℚ))
  | cat (vals : List (Option String))
deriving DecidableEq

/-- `pd.api.types.is_numeric_dtype` of a column. -/
def isNumCol : ColData → Bool
  | .num _ => true
  | .cat _ => false

/-- The values of a numeric column (`[]` on a categorical one; only applied
after an `isNumCol` check, mirroring the source's dtype guard). -/
def numVals : ColData → List (Option ℚ)
  | .num v => v
  | .cat _ => []

/-- `Series.isnull().any()`. -/
def hasMissing : ColData → Bool
  | .num l => l.any (fun x => x.isNone)
  | .cat l => l.any (fun x => x.isNone)

/-- The column is nonempty and every entry is missing. -/
def allMissing : ColData → Bool
  | .num l => !l.isEmpty && l.all (fun x => x.isNone)
  | .cat l => !l.isEmpty && l.all (fun x => x.isNone)

/-- A DataFrame: an ordered list of named columns. -/
structure DataFrame : Type where
  cols : List (String × ColData)
deriving DecidableEq

/-- The column names, in order (`df.columns`). -/
def DataFrame.names (df : DataFrame) : List String :=
  df.cols.map Prod.fst

/-- Look a column up by name (`df[col]`, with `col in df.columns` as the
membership test). -/
def DataFrame.find? (df : DataFrame) (c : String) : Option ColData :=
  (df.cols.find? (fun p => p.1 == c)).map Prod.snd

/-- Overwrite a column in place (`df[col] = ...`). -/
def DataFrame.setCol (df : DataFrame) (c : String) (d : ColData) : DataFrame :=
  ⟨df.cols.map (fun p => if p.1 == c then (p.1, d) else p)⟩

/-! ## Cleaner (`src/cleaner.py`) -/

/-- Median of a numeric column as the scalar `Series.median()` returns it:
`none` (NaN) when there are no non-missing values. -/
def medianOpt (l : List (Option ℚ)) : Option ℚ :=
  if dropNone l = [] then none else some (qmedian l)

/-- One iteration of the loop of `clean_dataframe`: if the column has a
missing entry, fill the missing entries — numeric with the median (filling
with NaN is a no-op), categorical with `mode()[0]`.  `none` models the
`KeyError` that `mode()[0]` raises on an entirely missing categorical
column. -/
def cleanColumn : ColData → Option ColData
  | .num l =>
    if l.any (fun x => x.isNone) then
      some (.num (l.map (fun x =>
        match x with
        | none => medianOpt l
        | some a => some a)))
    else some (.num l)
  | .cat l =>
    if l.any (fun x => x.isNone) then
      match modeCat (dropNone l) with
      | some m =>
        some (.cat (l.map (fun x =>
          match x with
          | none => some m
          | some a => some a)))
      | none => none
    else some (.cat l)

/-- The column loop of `clean_dataframe`, over the list of named columns. -/
def cleanCols : List (String × ColData) → Option (List (String × ColData))
  | [] => some []
  | p :: rest =>
    match cleanColumn p.2, cleanCols rest with
    | some c, some r => some ((p.1, c) :: r)
    | _, _ => none

/-- `clean_dataframe` (src/cleaner.py): works on a copy, fills missing
values column by column.  `none` models an uncaught exception. -/
def clean_dataframe (df : DataFrame) : Option DataFrame :=
  (cleanCols df.cols).map DataFrame.mk

/-! ## Profiler (`src/profiler.py`) -/

/-- The `describe()` row for one numeric column.  `svar` is the square of
the reported (sample) standard deviation, kept as a rational so the profile
stays computable; the float `std` is `Real.sqrt svar`. -/
structure NumSummary : Type where
  count : ℕ
  mean : ℚ
  svar : ℚ
  min : ℚ
  q25 : ℚ
  q50 : ℚ
  q75 : ℚ
  max : ℚ
deriving DecidableEq

/-- The categorical analysis entry for one column: `value_counts().to_dict()`
and `nunique()` (both drop missing values). -/
structure CatSummary : Type where
  value_counts : List (String × ℕ)
  unique_values_count : ℕ
deriving DecidableEq

/-- The full profile returned by `profile_dataframe`. -/
structure DatasetProfile : Type where
  basic_statistics : List (String × NumSummary)
  outliers_count : List (String × ℕ)
  categorical_analysis : List (String × CatSummary)
deriving DecidableEq

/-- `describe()` for one numeric column. -/
def numSummary (v : List (Option ℚ)) : NumSummary :=
  { count := (dropNone v).length
    mean := qmean v
    svar := qsvar v
    min := qmin v
    q25 := quantileQ (dropNone v) (1 / 4)
    q50 := qmedian v
    q75 := quantileQ (dropNone v) (3 / 4)
    max := qmax v }

/-- `value_counts` / `nunique` for one categorical column.  (pandas orders
`value_counts` by descending count; the claims below never depend on that
order, and this model lists values in first-appearance order.) -/
def catSummary (v : List (Option String)) : CatSummary :=
  let xs := dropNone v
  { value_counts := xs.dedup.map (fun s => (s, xs.count s))
    unique_values_count := xs.dedup.length }

/-- `profile_dataframe` (src/profiler.py): `describe()` over the numeric
columns, IQR outlier counts over the numeric columns, `value_counts` over
the categorical columns. -/
def profile_dataframe (df : DataFrame) : DatasetProfile :=
  { basic_statistics :=
      df.cols.filterMap (fun p =>
        match p.2 with
        | .num v => some (p.1, numSummary v)
        | .cat _ => none)
    outliers_count :=
      df.cols.filterMap (fun p =>
        match p.2 with
        | .num v => some (p.1, outlierCount v)
        | .cat _ => none)
    categorical_analysis :=
      df.cols.filterMap (fun p =>
        match p.2 with
        | .num _ => none
        | .cat v => some (p.1, catSummary v)) }

/-! ## What-If Engine (`src/app/orchestrator.py`, `run_what_if_scenario`) -/

/-- A modification request, the `modifications` dict of
`run_what_if_scenario`: `column`, `change_type` (one of the three literal
strings), `value`. -/
structure Modification : Type where
  column : String
  change_type : String
  value : ℚ
deriving DecidableEq

/-- The five summary statistics the what-if engine stores for the target
column (`original_stats` / `new_stats`).  `svar` again stands for the square
of the reported standard deviation. -/
structure ColStats : Type where
  mean : ℚ
  median : ℚ
  svar : ℚ
  min : ℚ
  max : ℚ
deriving DecidableEq

/-- The `original_stats` / `new_stats` dict for a column. -/
def colStats (l : List (Option ℚ)) : ColStats :=
  { mean := qmean l
    median := qmedian l
    svar := qsvar l
    min := qmin l
    max := qmax l }

/-- The source's `std` for a column-statistics record. -/
noncomputable def stdOf (s : ColStats) : ℝ :=
  Real.sqrt s.svar

/-- The `stats_changes` dict: one percentage change per statistic.  The
`std` entry is real-valued (it involves square roots). -/
structure StatChanges : Type where
  mean : ℚ
  median : ℚ
  std : ℝ
  min : ℚ
  max : ℚ

/-- Percentage change of one statistic:
`(new - old) / abs(old) * 100`, and `0` when the old value is `0`
(the source's `if original_stats[stat_name] != 0` guard). -/
def pctChange (o n : ℚ) : ℚ :=
  if o ≠ 0 then (n - o) / |o| * 100 else 0

/-- The `stats_changes` dict of the source.  For `std` the guard
`original_stats['std'] != 0` is written as `o.svar ≠ 0`, which is equivalent
since `Real.sqrt v = 0 ↔ v = 0` for the nonnegative `svar`
(see `stdOf_eq_zero_iff`). -/
noncomputable def statChanges (o n : ColStats) : StatChanges :=
  { mean := pctChange o.mean n.mean
    median := pctChange o.median n.median
    std := if o.svar ≠ 0 then (Real.sqrt n.svar - Real.sqrt o.svar) / |Real.sqrt o.svar| * 100 else 0
    min := pctChange o.min n.min
    max := pctChange o.max n.max }

/-- Apply the modification to the target column
(`Percentage Increase` / `Percentage Decrease` / `Set to Value`);
`none` for an unknown change type (the source returns an error there).
Multiplying a missing entry leaves it missing (NaN arithmetic); setting the
column to a scalar overwrites every row. -/
def applyMod (l : List (Option ℚ)) (ct : String) (v : ℚ) : Option (List (Option ℚ)) :=
  if ct = "Percentage Increase" then
    some (l.map (Option.map (fun x => x * (1 + v / 100))))
  else if ct = "Percentage Decrease" then
    some (l.map (Option.map (fun x => x * (1 - v / 100))))
  else if ct = "Set to Value" then
    some (List.replicate l.length (some v))
  else none

/-- The rows where both series have a value: `Series.corr` uses pairwise
complete observations. -/
def paired (xs ys : List (Option ℚ)) : List (ℚ × ℚ) :=
  (xs.zip ys).filterMap (fun p =>
    match p.1, p.2 with
    | some a, some b => some (a, b)
    | _, _ => none)

/-- Sample covariance of a list of pairs. -/
def scovList (ps : List (ℚ × ℚ)) : ℚ :=
  (ps.map (fun p =>
    (p.1 - meanList (ps.map Prod.fst)) * (p.2 - meanList (ps.map Prod.snd)))).sum
    / ((ps.length : ℚ) - 1)

/-- Pearson correlation of two columns,
`original_df[col].corr(original_df[other_col])`: sample covariance over the
product of the sample standard deviations, on the pairwise-complete rows.
When either variance vanishes pandas returns NaN; here the `x / 0 = 0`
convention makes the value `0` — both fail the `> 0.1` materiality test, so
the engine's observable behaviour agrees (see `corrKeep_iff`). -/
noncomputable def corr (xs ys : List (Option ℚ)) : ℝ :=
  let ps := paired xs ys
  (scovList ps : ℝ) /
    (Real.sqrt (svarList (ps.map Prod.fst)) * Real.sqrt (svarList (ps.map Prod.snd)))

/-- Decidable form of the source's materiality test
`abs(correlation) > 0.1`, over rationals: both variances positive and
`vx * vy < 100 * cov²`.  `corrKeep_iff` proves it equivalent to
`1/10 < |corr xs ys|`. -/
def corrKeep (xs ys : List (Option ℚ)) : Bool :=
  let ps := paired xs ys
  let vx := svarList (ps.map Prod.fst)
  let vy := svarList (ps.map Prod.snd)
  decide (0 < vx) && decide (0 < vy) && decide (vx * vy < 100 * scovList ps ^ 2)

/-- The estimated impact on a correlated column:
percentage-based → `correlation * val * (±1)`; set-to-value → first the
implied percentage change `(val - baseline_mean) / baseline_mean * 100`
(unguarded division, `q / 0 = 0` standing in for numpy's silent `inf`),
then `correlation * percentage_change`. -/
noncomputable def estImpact (ct : String) (v : ℚ) (baselineMean : ℚ) (r : ℝ) : ℝ :=
  if ct = "Percentage Increase" then r * (v : ℝ)
  else if ct = "Percentage Decrease" then r * (v : ℝ) * (-1)
  else r * (((v - baselineMean) / baselineMean * 100 : ℚ) : ℝ)

/-- The `impact_analysis` dict, in insertion order: iterate the numeric
columns of the dataset in order, skip the target, keep a column iff its
absolute correlation with the target (on the original data) exceeds `0.1`,
and record `(name, correlation, estimated_impact)`. -/
noncomputable def impactsFor (df : DataFrame) (col : String) (ct : String) (v : ℚ)
    (lt : List (Option ℚ)) (baseMean : ℚ) : List (String × ℝ × ℝ) :=
  df.cols.filterMap (fun p =>
    if p.1 ≠ col ∧ isNumCol p.2 = true then
      (if corrKeep lt (numVals p.2) = true then
        some (p.1, corr lt (numVals p.2),
          estImpact ct v baseMean (corr lt (numVals p.2)))
      else none)
    else none)

/-- The report assembled by `run_what_if_scenario` on the success path:
baseline stats, modified stats, per-stat percentage changes, impact tuples
and the external analyzer's narrative. -/
structure WhatIfReport : Type where
  originalStats : ColStats
  newStats : ColStats
  statsChanges : StatChanges
  impacts : List (String × ℝ × ℝ)
  narrative : String

/-- The result of `run_what_if_scenario`.  The source returns strings in
every case; each error constructor stands for the corresponding returned
error message and carries exactly the data interpolated into it. -/
inductive WhatIfResult : Type where
  | columnNotFound (col : String)
  | columnNotNumeric (col : String)
  | unknownChangeType (ct : String)
  | analysisError (msg : String)
  | report (r : WhatIfReport)

/-- The error strings of the source, reproduced from
`src/app/orchestrator.py`.  In particular both validation messages name the
offending column. -/
def renderError : WhatIfResult → Option String
  | .columnNotFound col =>
    some ("Error: Column '" ++ col ++ "' not found in the dataset.")
  | .columnNotNumeric col =>
    some ("Error: Column '" ++ col ++ "' is not numerical. What-if analysis requires numerical columns.")
  | .unknownChangeType ct =>
    some ("Error: Unknown change type '" ++ ct ++ "'")
  | .analysisError msg =>
    some ("Error during what-if analysis: " ++ msg)
  | .report _ => none

/-- `Orchestrator.run_what_if_scenario`.  `az` is the external analyzer
chain (`create_analyzer_chain().invoke`), an opaque text generator that may
raise (`Except.error`); the source's blanket `try/except` turns such an
exception into the `analysisError` message, discarding the numeric work.
The steps follow the source: validate the column exists, validate it is
numeric, take the baseline statistics, apply the modification (unknown
change type → error), recompute statistics and percentage changes, build
the impact dict from correlations on the original data, re-profile the
modified dataset and call the analyzer, then assemble the report. -/
noncomputable def run_what_if (df : DataFrame) (m : Modification)
    (az : DatasetProfile → Except String String) : WhatIfResult :=
  match DataFrame.find? df m.column with
  | none => .columnNotFound m.column
  | some cd =>
    if isNumCol cd = true then
      match applyMod (numVals cd) m.change_type m.value with
      | none => .unknownChangeType m.change_type
      | some l2 =>
        match az (profile_dataframe (DataFrame.setCol df m.column (.num l2))) with
        | .error e => .analysisError e
        | .ok narrative =>
          .report
            { originalStats := colStats (numVals cd)
              newStats := colStats l2
              statsChanges := statChanges (colStats (numVals cd)) (colStats l2)
              impacts := impactsFor df m.column m.change_type m.value (numVals cd)
                (colStats (numVals cd)).mean
              narrative := narrative }
    else .columnNotNumeric m.column

/-- An analyzer that always succeeds (a healthy external generator). -/
def okAz : DatasetProfile → Except String String := fun _ => .ok "analysis"

/-- An analyzer whose call raises (timeout / malformed output). -/
def failAz : DatasetProfile → Except String String := fun _ => .error "timeout"

/-! ## Helper lemmas -/

lemma map_fst_filterMap_num (cols : List (String × ColData))
    (f : List (Option ℚ) → α) :
    (cols.filterMap (fun p =>
      match p.2 with
      | .num v => some (p.1, f v)
      | .cat _ => none)).map Prod.fst
      = (cols.filter (fun p => isNumCol p.2)).map Prod.fst := by
  induction cols with
  | nil => rfl
  | cons p rest ih =>
    rcases p with ⟨c, cd⟩
    cases cd <;>
      simp [List.filterMap_cons, List.filter_cons, isNumCol, ih]

lemma map_fst_filterMap_cat (cols : List (String × ColData))
    (f : List (Option String) → α) :
    (cols.filterMap (fun p =>
      match p.2 with
      | .num _ => none
      | .cat v => some (p.1, f v))).map Prod.fst
      = (cols.filter (fun p => !isNumCol p.2)).map Prod.fst := by
  induction cols with
  | nil => rfl
  | cons p rest ih =>
    rcases p with ⟨c, cd⟩
    cases cd <;>
      simp [List.filterMap_cons, List.filter_cons, isNumCol, ih]

lemma forall₂_mem {α β : Type} {R : α → β → Prop} :
    ∀ {l₁ : List α} {l₂ : List β}, List.Forall₂ R l₁ l₂ →
      ∀ {a : α}, a ∈ l₁ → ∃ b ∈ l₂, R a b := by
  intro l₁ l₂ h
  induction h with
  | nil => intro a ha; cases ha
  | cons hr _ ih =>
    intro a ha
    rcases List.mem_cons.1 ha with rfl | ha2
    · exact ⟨_, List.mem_cons_self _ _, hr⟩
    · rcases ih ha2 with ⟨b, hb, hab⟩
      exact ⟨b, List.mem_cons_of_mem _ hb, hab⟩

lemma natMaxList_mem : ∀ (xs : List ℕ), xs ≠ [] → natMaxList xs ∈ xs := by
  intro xs
  induction xs with
  | nil => intro h; exact absurd rfl h
  | cons a as ih =>
    intro _
    by_cases has : as = []
    · subst has
      simp [natMaxList]
    · rcases max_choice a (natMaxList as) with h1 | h1 <;>
        simp only [natMaxList, h1]
      · exact List.mem_cons_self _ _
      · exact List.mem_cons_of_mem _ (ih has)

lemma strMinList_isSome : ∀ (xs : List String), xs ≠ [] → (strMinList xs).isSome := by
  intro xs
  cases xs with
  | nil => intro h; exact absurd rfl h
  | cons a as =>
    intro _
    cases h : strMinList as <;> simp [strMinList, h]

lemma modeCat_isSome (l : List String) (h : l ≠ []) : (modeCat l).isSome := by
  have hd : l.dedup ≠ [] := by
    simpa [List.dedup_eq_nil] using h
  have hmem : natMaxList (l.dedup.map (fun w => l.count w)) ∈
      l.dedup.map (fun w => l.count w) :=
    natMaxList_mem _ (by simpa using hd)
  rcases List.mem_map.1 hmem with ⟨v, hv, hcount⟩
  apply strMinList_isSome
  intro hfil
  have : v ∈ l.dedup.filter (fun w => l.count w = natMaxList (l.dedup.map (fun u => l.count u))) := by
    simp only [List.mem_filter]
    exact ⟨hv, by simpa using hcount⟩
  rw [hfil] at this
  cases this

lemma hasValue_of_missing_not_all {α : Type} (l : List (Option α))
    (hmiss : l.any (fun x => x.isNone) = true)
    (hnall : (!l.isEmpty && l.all (fun x => x.isNone)) = false) :
    dropNone l ≠ [] := by
  have hne : l ≠ [] := by
    intro h; subst h; simp at hmiss
  have : ¬ (l.all (fun x => x.isNone) = true) := by
    intro hall
    rw [Bool.and_eq_false_iff] at hnall
    rcases hnall with h1 | h1
    · simp [List.isEmpty_iff] at h1
      exact hne h1
    · rw [hall] at h1; cases h1
  rw [List.all_eq_true] at this
  push_neg at this
  rcases this with ⟨x, hx, hxn⟩
  cases x with
  | none => simp at hxn
  | some a =>
    intro hcontra
    have : a ∈ dropNone l := List.mem_filterMap.2 ⟨some a, hx, rfl⟩
    rw [hcontra] at this
    cases this

lemma cleanColumn_num_isSome (l : List (Option ℚ)) :
    (cleanColumn (ColData.num l)).isSome := by
  simp only [cleanColumn]
  split <;> simp

lemma cleanColumn_cat_isSome (l : List (Option String))
    (h : allMissing (ColData.cat l) = false) :
    (cleanColumn (ColData.cat l)).isSome := by
  simp only [cleanColumn]
  split
  · rename_i hmiss
    have hne : dropNone l ≠ [] :=
      hasValue_of_missing_not_all l hmiss (by simpa [allMissing] using h)
    rcases Option.isSome_iff_exists.1 (modeCat_isSome _ hne) with ⟨m, hm⟩
    rw [hm]
    simp
  · simp

lemma cleanCols_eq (cols : List (String × ColData))
    (h : ∀ p ∈ cols, (cleanColumn p.2).isSome) :
    ∃ r, cleanCols cols = some r ∧
      List.Forall₂ (fun p q => p.1 = q.1 ∧ cleanColumn p.2 = some q.2) cols r := by
  induction cols with
  | nil => exact ⟨[], rfl, List.Forall₂.nil⟩
  | cons p rest ih =>
    have hp := h p (List.mem_cons_self _ _)
    rcases Option.isSome_iff_exists.1 hp with ⟨c, hc⟩
    rcases ih (fun q hq => h q (List.mem_cons_of_mem _ hq)) with ⟨r, hr, hrel⟩
    refine ⟨(p.1, c) :: r, ?_, ?_⟩
    · simp [cleanCols, hc, hr]
    · exact List.Forall₂.cons ⟨rfl, hc⟩ hrel

/-- What cleaning does to one column, phrased as the spec states it: a
column with no missing entries is unchanged; a numeric column's missing
entries are replaced by the median of its non-missing values (linear
interpolation at the half quantile); a categorical column's missing entries
are replaced by its most frequent non-missing value, the least one on ties
(`modeCat`). -/
def cleanRel (c d : ColData) : Prop :=
  (hasMissing c = false → d = c) ∧
  (∀ l, c = ColData.num l → hasMissing c = true →
    d = ColData.num (l.map (fun x =>
      match x with
      | none => some (quantileQ (dropNone l) (1 / 2))
      | some a => some a))) ∧
  (∀ l, c = ColData.cat l → hasMissing c = true →
    ∃ m, modeCat (dropNone l) = some m ∧
      d = ColData.cat (l.map (fun x =>
        match x with
        | none => some m
        | some a => some a)))

lemma cleanColumn_spec (c d : ColData) (hall : allMissing c = false)
    (h : cleanColumn c = some d) :
    cleanRel c d ∧ hasMissing d = false := by
  cases c with
  | num l =>
    simp only [cleanColumn] at h
    split at h
    · rename_i hmiss
      have hne : dropNone l ≠ [] :=
        hasValue_of_missing_not_all l hmiss (by simpa [allMissing] using hall)
      have hmed : medianOpt l = some (quantileQ (dropNone l) (1 / 2)) := by
        simp [medianOpt, hne, qmedian]
      have hd : d = ColData.num (l.map (fun x =>
          match x with
          | none => some (quantileQ (dropNone l) (1 / 2))
          | some a => some a)) := by
        have := Option.some.inj h
        rw [← this]
        congr 1
        apply List.map_congr_left
        intro x _
        cases x with
        | none => simp [hmed]
        | some a => rfl
      refine ⟨⟨?_, ?_, ?_⟩, ?_⟩
      · intro hcontra
        rw [hasMissing] at hcontra
        rw [hmiss] at hcontra
        cases hcontra
      · intro l2 hl2 _
        cases hl2
        exact hd
      · intro l2 hl2
        cases hl2
      · rw [hd]
        simp only [hasMissing, List.any_map]
        rw [List.any_eq_false]
        intro x _
        cases x <;> simp [Function.comp]
    · rename_i hmiss
      have hd : d = ColData.num l := (Option.some.inj h).symm
      refine ⟨⟨fun _ => hd, ?_, ?_⟩, ?_⟩
      · intro l2 hl2 hcontra
        cases hl2
        rw [hasMissing] at hcontra
        rw [hcontra] at hmiss
        exact absurd rfl hmiss
      · intro l2 hl2
        cases hl2
      · rw [hd]
        simp only [hasMissing]
        exact Bool.eq_false_iff.2 hmiss
  | cat l =>
    simp only [cleanColumn] at h
    split at h
    · rename_i hmiss
      have hne : dropNone l ≠ [] :=
        hasValue_of_missing_not_all l hmiss (by simpa [allMissing] using hall)
      rcases Option.isSome_iff_exists.1 (modeCat_isSome _ hne) with ⟨m, hm⟩
      rw [hm] at h
      have hd : d = ColData.cat (l.map (fun x =>
          match x with
          | none => some m
          | some a => some a)) := (Option.some.inj h).symm
      refine ⟨⟨?_, ?_, ?_⟩, ?_⟩
      · intro hcontra
        rw [hasMissing] at hcontra
        rw [hmiss] at hcontra
        cases hcontra
      · intro l2 hl2
        cases hl2
      · intro l2 hl2 _
        cases hl2
        exact ⟨m, hm, hd⟩
      · rw [hd]
        simp only [hasMissing, List.any_map]
        rw [List.any_eq_false]
        intro x _
        cases x <;> simp [Function.comp]
    · rename_i hmiss
      have hd : d = ColData.cat l := (Option.some.inj h).symm
      refine ⟨⟨fun _ => hd, ?_, ?_⟩, ?_⟩
      · intro l2 hl2
        cases hl2
      · intro l2 hl2 hcontra
        cases hl2
        rw [hasMissing] at hcontra
        rw [hcontra] at hmiss
        exact absurd rfl hmiss
      · rw [hd]
        simp only [hasMissing]
        exact Bool.eq_false_iff.2 hmiss

/-! ## Claim theorems: cleaner -/

lemma forall₂_mem_right {α β : Type} {R : α → β → Prop} :
    ∀ {l₁ : List α} {l₂ : List β}, List.Forall₂ R l₁ l₂ →
      ∀ {b : β}, b ∈ l₂ → ∃ a ∈ l₁, R a b := by
  intro l₁ l₂ h
  induction h with
  | nil => intro b hb; cases hb
  | cons hr _ ih =>
    intro b hb
    rcases List.mem_cons.1 hb with rfl | hb2
    · exact ⟨_, List.mem_cons_self _ _, hr⟩
    · rcases ih hb2 with ⟨a, ha, hab⟩
      exact ⟨a, List.mem_cons_of_mem _ ha, hab⟩

lemma cleanRel_of_forall₂ :
    ∀ (cols r : List (String × ColData)),
      (∀ p ∈ cols, allMissing p.2 = false) →
      List.Forall₂ (fun p q => p.1 = q.1 ∧ cleanColumn p.2 = some q.2) cols r →
      List.Forall₂ (fun p q => p.1 = q.1 ∧ cleanRel p.2 q.2) cols r := by
  intro cols
  induction cols with
  | nil =>
    intro r _ hrel
    cases hrel
    exact List.Forall₂.nil
  | cons p l1 ih =>
    intro r h hrel
    rcases List.forall₂_cons_left_iff.1 hrel with ⟨q, l2, hpq, htail, rfl⟩
    exact List.Forall₂.cons
      ⟨hpq.1, (cleanColumn_spec p.2 q.2 (h p (List.mem_cons_self _ _)) hpq.2).1⟩
      (ih l2 (fun x hx => h x (List.mem_cons_of_mem _ hx)) htail)

/-- C7.  For every dataset in which no column is entirely missing,
`clean_dataframe` succeeds and returns a new dataset with no missing values;
column by column (same names, same order): a column with no missing entries
is unchanged, a numeric column's missing entries are replaced by the median
of its non-missing values, and a categorical column's missing entries are
replaced by its most frequent value (least on ties).  The input dataset is
a pure value and is never mutated. -/
theorem c7_clean_contract (df : DataFrame)
    (h : ∀ p ∈ df.cols, allMissing p.2 = false) :
    ∃ df2, clean_dataframe df = some df2 ∧
      (∀ q ∈ df2.cols, hasMissing q.2 = false) ∧
      List.Forall₂ (fun p q => p.1 = q.1 ∧ cleanRel p.2 q.2) df.cols df2.cols := by
  have hsome : ∀ p ∈ df.cols, (cleanColumn p.2).isSome := by
    intro p hp
    cases hc : p.2 with
    | num l => exact cleanColumn_num_isSome l
    | cat l =>
      apply cleanColumn_cat_isSome
      rw [← hc]
      exact h p hp
  rcases cleanCols_eq df.cols hsome with ⟨r, hr, hrel⟩
  refine ⟨⟨r⟩, by simp [clean_dataframe, hr], ?_, ?_⟩
  · intro q hq
    rcases forall₂_mem_right hrel hq with ⟨p, hp, hpq⟩
    exact (cleanColumn_spec p.2 q.2 (h p hp) hpq.2).2
  · exact cleanRel_of_forall₂ df.cols r h hrel

/-- A concrete dataset for C7: a numeric column with a missing entry, a
categorical column with a missing entry and a tie in value counts, and an
untouched numeric column. -/
def dfW7 : DataFrame :=
  ⟨[("age", .num [some 1, none, some 3]),
    ("city", .cat [some "b", none, some "a", some "b"]),
    ("score", .num [some 5, some 6])]⟩

/-- Witness for C7 at `dfW7`. -/
theorem c7_clean_contract_witness :
    (∀ p ∈ dfW7.cols, allMissing p.2 = false) ∧
    (∃ df2, clean_dataframe dfW7 = some df2 ∧
      (∀ q ∈ df2.cols, hasMissing q.2 = false) ∧
      List.Forall₂ (fun p q => p.1 = q.1 ∧ cleanRel p.2 q.2) dfW7.cols df2.cols) :=
  ⟨by decide, c7_clean_contract dfW7 (by decide)⟩

/-- A dataset with an entirely missing numeric column and an entirely
missing categorical column. -/
def dfC10 : DataFrame :=
  ⟨[("n", .num [none]), ("c", .cat [none])]⟩

/-- Counterexample to C10 as stated.  C10 claims `clean` returns normally
for *every* dataset containing an entirely missing numeric column, but on
`dfC10` — which contains one — `clean_dataframe` raises: the categorical
column `"c"` is also entirely missing, its `mode()` is an empty series, and
`mode()[0]` raises a `KeyError` (modelled by `none`). -/
theorem c10_counterexample : clean_dataframe dfC10 = none := by decide

/-- C10, amended: for every dataset containing an entirely missing numeric
column, *provided no categorical column is entirely missing*, `clean`
returns normally and that numeric column is unchanged in the result — the
median of an all-missing column is itself missing (NaN), so the fill is a
no-op and the column still consists entirely of missing values, defeating
the advertised no-missing-values postcondition. -/
theorem c10_allMissing_numeric_noop (df : DataFrame) (c : String)
    (l : List (Option ℚ))
    (hmem : (c, ColData.num l) ∈ df.cols)
    (hall : ∀ x ∈ l, x = (none : Option ℚ))
    (hcat : ∀ p ∈ df.cols, isNumCol p.2 = false → allMissing p.2 = false) :
    ∃ df2, clean_dataframe df = some df2 ∧ (c, ColData.num l) ∈ df2.cols := by
  have hfill : cleanColumn (ColData.num l) = some (ColData.num l) := by
    simp only [cleanColumn]
    split
    · have hmed : medianOpt l = none := by
        have : dropNone l = [] := by
          rw [dropNone, List.filterMap_eq_nil_iff]
          intro x hx
          rw [hall x hx]
          rfl
        simp [medianOpt, this]
      have hmap : l.map (fun x =>
          match x with
          | none => medianOpt l
          | some a => some a) = l := by
        have h2 : l.map (fun x =>
            match x with
            | none => medianOpt l
            | some a => some a) = l.map id :=
          List.map_congr_left (fun x hx => by rw [hall x hx]; simp [hmed])
        rw [h2, List.map_id]
      rw [hmap]
    · rfl
  have hsome : ∀ p ∈ df.cols, (cleanColumn p.2).isSome := by
    intro p hp
    cases hc : p.2 with
    | num v => exact cleanColumn_num_isSome v
    | cat v =>
      apply cleanColumn_cat_isSome
      rw [← hc]
      exact hcat p hp (by rw [hc]; rfl)
  rcases cleanCols_eq df.cols hsome with ⟨r, hr, hrel⟩
  refine ⟨⟨r⟩, by simp [clean_dataframe, hr], ?_⟩
  rcases forall₂_mem hrel hmem with ⟨q, hq, hq1, hq2⟩
  have : some (ColData.num l) = some q.2 := by rw [← hfill, hq2]
  have hq3 : q = (c, ColData.num l) := by
    rcases q with ⟨qc, qd⟩
    simp only at hq1
    rw [Prod.mk.injEq]
    exact ⟨hq1.symm, (Option.some.inj this).symm⟩
  rw [← hq3]
  exact hq

/-- Witness dataset for the amended C10: an entirely missing numeric
column next to ordinary columns. -/
def dfW10 : DataFrame :=
  ⟨[("empty", .num [none, none]),
    ("k", .num [some 1, none]),
    ("c", .cat [some "a", none])]⟩

/-- Witness for the amended C10 at `dfW10`. -/
theorem c10_allMissing_numeric_noop_witness :
    (("empty", ColData.num [none, none]) ∈ dfW10.cols ∧
      (∀ x ∈ [(none : Option ℚ), none], x = none) ∧
      (∀ p ∈ dfW10.cols, isNumCol p.2 = false → allMissing p.2 = false)) ∧
    (∃ df2, clean_dataframe dfW10 = some df2 ∧
      ("empty", ColData.num [none, none]) ∈ df2.cols) :=
  ⟨⟨by decide, by decide, by decide⟩,
    c10_allMissing_numeric_noop dfW10 "empty" [none, none]
      (by decide) (by decide) (by decide)⟩

/-! ## Claim theorems: profiler -/

/-- C4.  For every dataset with distinct column names, `profile_dataframe`
partitions the columns into the numeric summary and the categorical
summary: a name appears among the profiled columns iff it is a column of
the dataset, no name appears in both partitions, and no partition profiles
a column twice. -/
theorem c4_profile_partition (df : DataFrame) (h : df.names.Nodup) :
    (∀ c, c ∈ df.names ↔
      (c ∈ (profile_dataframe df).basic_statistics.map Prod.fst ∨
       c ∈ (profile_dataframe df).categorical_analysis.map Prod.fst)) ∧
    (∀ c, ¬(c ∈ (profile_dataframe df).basic_statistics.map Prod.fst ∧
            c ∈ (profile_dataframe df).categorical_analysis.map Prod.fst)) ∧
    ((profile_dataframe df).basic_statistics.map Prod.fst).Nodup ∧
    ((profile_dataframe df).categorical_analysis.map Prod.fst).Nodup := by
  have hnum : (profile_dataframe df).basic_statistics.map Prod.fst
      = (df.cols.filter (fun p => isNumCol p.2)).map Prod.fst :=
    map_fst_filterMap_num df.cols numSummary
  have hcat : (profile_dataframe df).categorical_analysis.map Prod.fst
      = (df.cols.filter (fun p => !isNumCol p.2)).map Prod.fst :=
    map_fst_filterMap_cat df.cols catSummary
  rw [hnum, hcat]
  refine ⟨?_, ?_, ?_, ?_⟩
  · intro c
    constructor
    · intro hc
      rcases List.mem_map.1 hc with ⟨p, hp, rfl⟩
      cases hcd : p.2 with
      | num v =>
        left
        exact List.mem_map.2 ⟨p, List.mem_filter.2 ⟨hp, by simp [hcd, isNumCol]⟩, rfl⟩
      | cat v =>
        right
        exact List.mem_map.2 ⟨p, List.mem_filter.2 ⟨hp, by simp [hcd, isNumCol]⟩, rfl⟩
    · intro hc
      rcases hc with hc | hc <;>
      · rcases List.mem_map.1 hc with ⟨p, hp, rfl⟩
        exact List.mem_map.2 ⟨p, (List.mem_filter.1 hp).1, rfl⟩
  · intro c ⟨h1, h2⟩
    rcases List.mem_map.1 h1 with ⟨p, hp, hpc⟩
    rcases List.mem_map.1 h2 with ⟨q, hq, hqc⟩
    rcases List.mem_filter.1 hp with ⟨hpmem, hpnum⟩
    rcases List.mem_filter.1 hq with ⟨hqmem, hqnum⟩
    have hpq : p = q := by
      have := List.inj_on_of_nodup_map (f := Prod.fst) h
      exact this hpmem hqmem (by rw [hpc, hqc])
    rw [hpq] at hpnum
    rw [hpnum] at hqnum
    cases hqnum
  · exact ((df.cols.filter_sublist (p := fun p => isNumCol p.2)).map Prod.fst).nodup h
  · exact ((df.cols.filter_sublist (p := fun p => !isNumCol p.2)).map Prod.fst).nodup h

/-- Witness dataset for C4: two numeric and one categorical column. -/
def dfW4 : DataFrame :=
  ⟨[("a", .num [some 1]), ("b", .cat [some "x"]), ("d", .num [some 2])]⟩

/-- Witness for C4 at `dfW4`. -/
theorem c4_profile_partition_witness :
    dfW4.names.Nodup ∧
    (∀ c, ¬(c ∈ (profile_dataframe dfW4).basic_statistics.map Prod.fst ∧
            c ∈ (profile_dataframe dfW4).categorical_analysis.map Prod.fst)) :=
  ⟨by decide, (c4_profile_partition dfW4 (by decide)).2.1⟩

/-- The concrete dataset of the C8 scenario. -/
def salaryDF : DataFrame :=
  ⟨[("salary", .num [some 30000, some 32000, some 31000, some 1000000, some 33000])]⟩

/-- C8.  The outlier count that `profile_dataframe` reports for a numeric
column is the number of its non-missing values lying strictly below
`Q1 - 1.5 * IQR` or strictly above `Q3 + 1.5 * IQR`, with `Q1`/`Q3` the
linear-interpolation quantiles at `0.25`/`0.75` and `IQR = Q3 - Q1`; and on
`salary = [30000, 32000, 31000, 1000000, 33000]` the reported count is
exactly `1`. -/
theorem c8_outlier_rule :
    (∀ v : List (Option ℚ),
      outlierCount v =
        ((dropNone v).filter (fun x => decide
          (x < quantileQ (dropNone v) (1 / 4)
              - 3 / 2 * (quantileQ (dropNone v) (3 / 4) - quantileQ (dropNone v) (1 / 4))
            ∨ quantileQ (dropNone v) (3 / 4)
              + 3 / 2 * (quantileQ (dropNone v) (3 / 4) - quantileQ (dropNone v) (1 / 4)) < x))).length)
    ∧ (profile_dataframe salaryDF).outliers_count = [("salary", 1)] := by
  constructor
  · intro v
    simp only [outlierCount, List.countP_eq_length_filter, Bool.decide_or]
  · have h1 : outlierCount [some 30000, some 32000, some 31000, some 1000000, some 33000] = 1 := by
      norm_num [outlierCount, quantileQ, sortQ, dropNone, List.insertionSort, List.orderedInsert,
        show Int.toNat 3 = 3 from rfl, show Int.toNat 1 = 1 from rfl, List.countP, List.countP.go]
    simp only [profile_dataframe, salaryDF, List.filterMap_cons, List.filterMap_nil, h1]

/-! ## Claim theorems: what-if engine -/

/-- C1.  For every dataset and modification whose target column does not
exist, or exists but is not numeric, `run_what_if` returns the
corresponding validation error naming the offending column, before any
statistic is computed (the result carries nothing but the column name) and
regardless of the analyzer; the input dataset is a pure value and is left
unaltered.  The last two conjuncts pin down the user-visible messages,
which name the column. -/
theorem c1_validation_errors (df : DataFrame) (m : Modification)
    (az : DatasetProfile → Except String String) :
    (DataFrame.find? df m.column = none →
      run_what_if df m az = WhatIfResult.columnNotFound m.column) ∧
    (∀ cd, DataFrame.find? df m.column = some cd → isNumCol cd = false →
      run_what_if df m az = WhatIfResult.columnNotNumeric m.column) ∧
    (∀ c, renderError (WhatIfResult.columnNotFound c) =
      some ("Error: Column '" ++ c ++ "' not found in the dataset.")) ∧
    (∀ c, renderError (WhatIfResult.columnNotNumeric c) =
      some ("Error: Column '" ++ c ++ "' is not numerical. What-if analysis requires numerical columns.")) := by
  refine ⟨?_, ?_, fun c => rfl, fun c => rfl⟩
  · intro h
    simp [run_what_if, h]
  · intro cd h hnum
    simp [run_what_if, h, hnum]

/-- Witness dataset for C1. -/
def dfW1 : DataFrame :=
  ⟨[("a", .num [some 1]), ("c", .cat [some "x"])]⟩

/-- Witness for C1: a missing column and a categorical column. -/
theorem c1_validation_errors_witness :
    run_what_if dfW1 ⟨"zzz", "Percentage Increase", 10⟩ okAz
      = WhatIfResult.columnNotFound "zzz" ∧
    run_what_if dfW1 ⟨"c", "Percentage Increase", 10⟩ okAz
      = WhatIfResult.columnNotNumeric "c" :=
  ⟨(c1_validation_errors dfW1 ⟨"zzz", "Percentage Increase", 10⟩ okAz).1 (by rfl),
   (c1_validation_errors dfW1 ⟨"c", "Percentage Increase", 10⟩ okAz).2.1
     (ColData.cat [some "x"]) (by rfl) rfl⟩

lemma run_report_inv (df : DataFrame) (m : Modification)
    (az : DatasetProfile → Except String String) (r : WhatIfReport)
    (h : run_what_if df m az = WhatIfResult.report r) :
    ∃ lt l2, DataFrame.find? df m.column = some (ColData.num lt) ∧
      applyMod lt m.change_type m.value = some l2 ∧
      r.originalStats = colStats lt ∧
      r.newStats = colStats l2 ∧
      r.statsChanges = statChanges (colStats lt) (colStats l2) ∧
      r.impacts = impactsFor df m.column m.change_type m.value lt (colStats lt).mean := by
  unfold run_what_if at h
  cases hf : DataFrame.find? df m.column with
  | none =>
    rw [hf] at h
    cases h
  | some cd =>
    rw [hf] at h
    cases cd with
    | cat v => simp [isNumCol] at h
    | num lt =>
      simp only [isNumCol, if_true] at h
      cases hm : applyMod lt m.change_type m.value with
      | none =>
        rw [show numVals (ColData.num lt) = lt from rfl, hm] at h
        cases h
      | some l2 =>
        rw [show numVals (ColData.num lt) = lt from rfl, hm] at h
        dsimp only [] at h
        cases ha : az (profile_dataframe (DataFrame.setCol df m.column (ColData.num l2))) with
        | error e =>
          rw [ha] at h
          cases h
        | ok s =>
          rw [ha] at h
          cases h
          exact ⟨lt, l2, rfl, hm, rfl, rfl, rfl, rfl⟩

/-- The concrete dataset and modification of the C6 counterexample. -/
def dfC6 : DataFrame := ⟨[("x", .num [some 1, some 2])]⟩

/-- The C6 modification: a valid 10% increase on `x`. -/
def mC6 : Modification := ⟨"x", "Percentage Increase", 10⟩

/-- Counterexample to C6 as stated.  When the external text-generation call
raises, the source's blanket `try/except` returns *only* the error message:
the whole response is the error, no numeric section is returned, and no
report (degraded or otherwise) is produced. -/
theorem c6_counterexample :
    run_what_if dfC6 mC6 failAz = WhatIfResult.analysisError "timeout" ∧
    ∀ r, run_what_if dfC6 mC6 failAz ≠ WhatIfResult.report r := by
  have h : run_what_if dfC6 mC6 failAz = WhatIfResult.analysisError "timeout" := rfl
  exact ⟨h, fun r hr => by rw [h] at hr; cases hr⟩

/-- C6, amended: when the external text-generation call fails on an
otherwise valid request, `run_what_if` catches the exception and returns
the bare `analysisError` message — the numeric sections (baseline stats,
modified stats, percentage changes, impact estimates), although already
computed, are discarded rather than returned with the narrative marked
unavailable.  The process itself does not crash. -/
theorem c6_generator_failure_discards_numerics (df : DataFrame)
    (m : Modification) (az : DatasetProfile → Except String String)
    (cd : ColData) (l2 : List (Option ℚ)) (e : String)
    (hf : DataFrame.find? df m.column = some cd)
    (hn : isNumCol cd = true)
    (hm : applyMod (numVals cd) m.change_type m.value = some l2)
    (ha : az (profile_dataframe (DataFrame.setCol df m.column (ColData.num l2)))
      = Except.error e) :
    run_what_if df m az = WhatIfResult.analysisError e ∧
    ∀ r, run_what_if df m az ≠ WhatIfResult.report r := by
  have h : run_what_if df m az = WhatIfResult.analysisError e := by
    unfold run_what_if
    rw [hf]
    simp only [hn, if_true, hm, ha]
  exact ⟨h, fun r hr => by rw [h] at hr; cases hr⟩

/-- Witness for the amended C6 at `dfC6` with a failing analyzer. -/
theorem c6_generator_failure_discards_numerics_witness :
    run_what_if dfC6 mC6 failAz = WhatIfResult.analysisError "timeout" :=
  (c6_generator_failure_discards_numerics dfC6 mC6 failAz
    (ColData.num [some 1, some 2])
    (List.map (Option.map (fun x => x * (1 + (10 : ℚ) / 100))) [some 1, some 2])
    "timeout" rfl rfl rfl rfl).1

lemma dropNone_map_optionMap (f : ℚ → ℚ) (l : List (Option ℚ)) :
    dropNone (l.map (Option.map f)) = (dropNone l).map f := by
  induction l with
  | nil => rfl
  | cons a as ih =>
    cases a <;> simp only [dropNone, List.map_cons, List.filterMap_cons] at ih ⊢ <;>
      simp [ih]

lemma sum_map_mul_const (v : List ℚ) (k : ℚ) :
    (v.map (fun x => x * k)).sum = v.sum * k := by
  induction v with
  | nil => simp
  | cons a as ih => simp [ih, add_mul]

lemma meanList_map_mul (v : List ℚ) (k : ℚ) :
    meanList (v.map (fun x => x * k)) = meanList v * k := by
  simp only [meanList, sum_map_mul_const, List.length_map]
  rw [mul_div_right_comm]

/-- C9.  A `Percentage Increase` of `p` percent multiplies every value of
the target column by `1 + p/100`, so the reported modified mean equals the
baseline mean times `1 + p/100` — exactly, in the rational model, hence in
particular within any floating-point tolerance; and a zero-magnitude
modification (`p = 0`) leaves all five statistics unchanged and reports
every percentage change as `0`. -/
theorem c9_percentage_increase (df : DataFrame) (col : String) (p : ℚ)
    (az : DatasetProfile → Except String String) (r : WhatIfReport)
    (h : run_what_if df ⟨col, "Percentage Increase", p⟩ az = WhatIfResult.report r) :
    r.newStats.mean = r.originalStats.mean * (1 + p / 100) ∧
    (p = 0 → r.newStats = r.originalStats ∧
      r.statsChanges = ⟨0, 0, (0 : ℝ), 0, 0⟩) := by
  rcases run_report_inv df _ az r h with ⟨lt, l2, hf, hm, ho, hn, hc, hi⟩
  have hl2 : l2 = lt.map (Option.map (fun x => x * (1 + p / 100))) := by
    simp only [applyMod, if_pos] at hm
    exact (Option.some.inj hm).symm
  constructor
  · rw [hn, ho, hl2]
    show qmean (lt.map (Option.map fun x => x * (1 + p / 100)))
      = qmean lt * (1 + p / 100)
    rw [qmean, qmean, dropNone_map_optionMap, meanList_map_mul]
  · intro hp
    subst hp
    have hid : l2 = lt := by
      rw [hl2]
      have hcong : lt.map (Option.map (fun x => x * (1 + (0 : ℚ) / 100))) = lt.map id :=
        List.map_congr_left (fun x _ => by cases x <;> simp)
      rw [hcong, List.map_id]
    refine ⟨by rw [hn, ho, hid], ?_⟩
    rw [hc, hid]
    simp [statChanges, pctChange, sub_self]

/-- Witness dataset for C9: a single numeric column. -/
def dfW9 : DataFrame := ⟨[("x", .num [some 1, some 2])]⟩

/-- The report `run_what_if` produces on `dfW9` for a 20% increase of `x`
under a healthy analyzer. -/
noncomputable def rptW9 : WhatIfReport :=
  { originalStats := colStats [some 1, some 2]
    newStats := colStats
      (List.map (Option.map (fun x => x * (1 + (20 : ℚ) / 100))) [some 1, some 2])
    statsChanges := statChanges (colStats [some 1, some 2])
      (colStats (List.map (Option.map (fun x => x * (1 + (20 : ℚ) / 100))) [some 1, some 2]))
    impacts := []
    narrative := "analysis" }

/-- Witness for C9 at `dfW9` with `p = 20`. -/
theorem c9_percentage_increase_witness :
    run_what_if dfW9 ⟨"x", "Percentage Increase", 20⟩ okAz = WhatIfResult.report rptW9 ∧
    rptW9.newStats.mean = rptW9.originalStats.mean * (1 + (20 : ℚ) / 100) :=
  ⟨rfl, (c9_percentage_increase dfW9 "x" 20 okAz rptW9 rfl).1⟩

lemma svarList_nonneg (v : List ℚ) : 0 ≤ svarList v := by
  cases v with
  | nil => simp [svarList]
  | cons a as =>
    rw [svarList]
    apply div_nonneg
    · apply List.sum_nonneg
      intro x hx
      rcases List.mem_map.1 hx with ⟨b, _, rfl⟩
      positivity
    · simp only [List.length_cons]
      push_cast
      linarith

/-- The decidable rational guard `corrKeep` is exactly the source's
materiality test `abs(correlation) > 0.1` on the real-valued Pearson
correlation. -/
lemma corrKeep_iff (xs ys : List (Option ℚ)) :
    corrKeep xs ys = true ↔ 1 / 10 < |corr xs ys| := by
  have hvxnn : (0 : ℚ) ≤ svarList ((paired xs ys).map Prod.fst) := svarList_nonneg _
  have hvynn : (0 : ℚ) ≤ svarList ((paired xs ys).map Prod.snd) := svarList_nonneg _
  simp only [corrKeep, corr]
  set c := scovList (paired xs ys) with hc
  set vx := svarList ((paired xs ys).map Prod.fst) with hvx
  set vy := svarList ((paired xs ys).map Prod.snd) with hvy
  by_cases h1 : 0 < vx
  · by_cases h2 : 0 < vy
    · have hsx : (0 : ℝ) < Real.sqrt (vx : ℝ) := Real.sqrt_pos.2 (by exact_mod_cast h1)
      have hsy : (0 : ℝ) < Real.sqrt (vy : ℝ) := Real.sqrt_pos.2 (by exact_mod_cast h2)
      have hd : (0 : ℝ) < Real.sqrt (vx : ℝ) * Real.sqrt (vy : ℝ) := mul_pos hsx hsy
      rw [abs_div, abs_of_pos hd, lt_div_iff₀ hd]
      simp only [Bool.and_eq_true, decide_eq_true_eq]
      constructor
      · intro h3
        have h4 : vx * vy < 100 * c ^ 2 := h3.2
        have h5 : (Real.sqrt (vx : ℝ) * Real.sqrt (vy : ℝ)) ^ 2 < (10 * |(c : ℝ)|) ^ 2 := by
          rw [mul_pow, Real.sq_sqrt (by exact_mod_cast hvxnn),
            Real.sq_sqrt (by exact_mod_cast hvynn), mul_pow, sq_abs]
          exact_mod_cast h4
        have h6 : Real.sqrt (vx : ℝ) * Real.sqrt (vy : ℝ) < 10 * |(c : ℝ)| :=
          (pow_lt_pow_iff_left₀ (le_of_lt hd)
            (by positivity) (by norm_num)).1 h5
        linarith
      · intro h3
        refine ⟨⟨h1, h2⟩, ?_⟩
        have h6 : Real.sqrt (vx : ℝ) * Real.sqrt (vy : ℝ) < 10 * |(c : ℝ)| := by
          linarith
        have h5 : (Real.sqrt (vx : ℝ) * Real.sqrt (vy : ℝ)) ^ 2 < (10 * |(c : ℝ)|) ^ 2 :=
          pow_lt_pow_left₀ h6 (le_of_lt hd) (by norm_num)
        rw [mul_pow, Real.sq_sqrt (by exact_mod_cast hvxnn),
          Real.sq_sqrt (by exact_mod_cast hvynn), mul_pow, sq_abs] at h5
        exact_mod_cast h5
    · have hz : vy = 0 := le_antisymm (not_lt.1 h2) hvynn
      rw [hz]
      simp
  · have hz : vx = 0 := le_antisymm (not_lt.1 h1) hvxnn
    rw [hz]
    simp

/-- C5.  For a valid percentage-based modification of magnitude `p`
(`inc = true` for an increase, `false` for a decrease) on a dataset with
distinct column names, a numeric column other than the target appears in
the impact set iff the absolute Pearson correlation with the target,
computed on the original unmodified data, exceeds `0.1`; and every entry it
contributes carries exactly that correlation and the estimated impact
`correlation * p * (+1 for increase, -1 for decrease)`. -/
theorem c5_impact_set (df : DataFrame) (col : String) (p : ℚ) (inc : Bool)
    (az : DatasetProfile → Except String String) (r : WhatIfReport)
    (lt : List (Option ℚ))
    (hnd : df.names.Nodup)
    (ht : DataFrame.find? df col = some (ColData.num lt))
    (h : run_what_if df
      ⟨col, if inc then "Percentage Increase" else "Percentage Decrease", p⟩ az
      = WhatIfResult.report r) :
    ∀ c cd, (c, cd) ∈ df.cols → c ≠ col → isNumCol cd = true →
      (((∃ rc ic, (c, rc, ic) ∈ r.impacts) ↔ 1 / 10 < |corr lt (numVals cd)|) ∧
       (∀ rc ic, (c, rc, ic) ∈ r.impacts →
         rc = corr lt (numVals cd) ∧
         ic = corr lt (numVals cd) * (p : ℝ) * (if inc then 1 else -1))) := by
  rcases run_report_inv df _ az r h with ⟨lt2, l2, hf, hm, ho, hn, hc, hi⟩
  have hlt : lt2 = lt := by
    rw [ht] at hf
    exact (ColData.num.inj (Option.some.inj hf)).symm
  rw [hlt] at hi
  intro c cd hmem hne hnum
  have hinj := List.inj_on_of_nodup_map (f := Prod.fst) hnd
  have hval : ∀ rc ic, (c, rc, ic) ∈ r.impacts →
      rc = corr lt (numVals cd) ∧
      ic = corr lt (numVals cd) * (p : ℝ) * (if inc then 1 else -1) := by
    intro rc ic hin
    rw [hi] at hin
    rcases List.mem_filterMap.1 hin with ⟨q, hq, hfq⟩
    by_cases hcond : q.1 ≠ col ∧ isNumCol q.2 = true
    · rw [if_pos hcond] at hfq
      by_cases hkeep : corrKeep lt (numVals q.2) = true
      · rw [if_pos hkeep] at hfq
        have hq1 : q.1 = c := congrArg Prod.fst (Option.some.inj hfq)
        have hqeq : q = (c, cd) := hinj hq (by exact hmem) (by rw [hq1])
        have h2 := Option.some.inj hfq
        rw [hqeq] at h2
        have hrc : rc = corr lt (numVals cd) := (congrArg (fun t => t.2.1) h2).symm
        have hic : ic = estImpact
            (if inc then "Percentage Increase" else "Percentage Decrease") p
            (colStats lt).mean (corr lt (numVals cd)) :=
          (congrArg (fun t => t.2.2) h2).symm
        refine ⟨hrc, ?_⟩
        rw [hic]
        cases inc <;> simp [estImpact]
      · rw [if_neg hkeep] at hfq
        cases hfq
    · rw [if_neg hcond] at hfq
      cases hfq
  refine ⟨⟨?_, ?_⟩, hval⟩
  · intro hex
    rcases hex with ⟨rc, ic, hin⟩
    rw [hi] at hin
    rcases List.mem_filterMap.1 hin with ⟨q, hq, hfq⟩
    by_cases hcond : q.1 ≠ col ∧ isNumCol q.2 = true
    · rw [if_pos hcond] at hfq
      by_cases hkeep : corrKeep lt (numVals q.2) = true
      · rw [if_pos hkeep] at hfq
        have hq1 : q.1 = c := congrArg Prod.fst (Option.some.inj hfq)
        have hqeq : q = (c, cd) := hinj hq (by exact hmem) (by rw [hq1])
        rw [hqeq] at hkeep
        exact (corrKeep_iff _ _).1 hkeep
      · rw [if_neg hkeep] at hfq
        cases hfq
    · rw [if_neg hcond] at hfq
      cases hfq
  · intro habs
    have hkeep : corrKeep lt (numVals cd) = true := (corrKeep_iff _ _).2 habs
    refine ⟨corr lt (numVals cd),
      estImpact (if inc then "Percentage Increase" else "Percentage Decrease") p
        (colStats lt).mean (corr lt (numVals cd)), ?_⟩
    rw [hi]
    refine List.mem_filterMap.2 ⟨(c, cd), hmem, ?_⟩
    rw [if_pos ⟨hne, hnum⟩, if_pos hkeep]

lemma corr_xy_one : corr [some 1, some 2, some 3] [some 2, some 4, some 6] = 1 := by
  have hps : paired [some 1, some 2, some 3] [some 2, some 4, some 6]
      = [((1 : ℚ), (2 : ℚ)), (2, 4), (3, 6)] := rfl
  have h1 : svarList (List.map Prod.fst [((1 : ℚ), (2 : ℚ)), (2, 4), (3, 6)]) = 1 := by
    norm_num [svarList, meanList]
  have h2 : svarList (List.map Prod.snd [((1 : ℚ), (2 : ℚ)), (2, 4), (3, 6)]) = 4 := by
    norm_num [svarList, meanList]
  have h3 : scovList [((1 : ℚ), (2 : ℚ)), (2, 4), (3, 6)] = 2 := by
    norm_num [scovList, meanList]
  simp only [corr, hps, h1, h2, h3]
  rw [show ((1 : ℚ) : ℝ) = 1 by norm_num, show ((4 : ℚ) : ℝ) = 4 by norm_num,
    show ((2 : ℚ) : ℝ) = 2 by norm_num]
  rw [Real.sqrt_one, show (4 : ℝ) = 2 ^ 2 by norm_num,
    Real.sqrt_sq (by norm_num : (0 : ℝ) ≤ 2)]
  norm_num

/-- Witness dataset for C5: `y = 2 * x`, perfectly correlated
(`corr = 1.0`). -/
def dfW5 : DataFrame :=
  ⟨[("x", .num [some 1, some 2, some 3]), ("y", .num [some 2, some 4, some 6])]⟩

/-- The report produced on `dfW5` by a 20% increase of `x`. -/
noncomputable def rptW5 : WhatIfReport :=
  { originalStats := colStats [some 1, some 2, some 3]
    newStats := colStats
      (List.map (Option.map (fun x => x * (1 + (20 : ℚ) / 100))) [some 1, some 2, some 3])
    statsChanges := statChanges (colStats [some 1, some 2, some 3])
      (colStats (List.map (Option.map (fun x => x * (1 + (20 : ℚ) / 100)))
        [some 1, some 2, some 3]))
    impacts := impactsFor dfW5 "x" "Percentage Increase" 20 [some 1, some 2, some 3]
      (colStats [some 1, some 2, some 3]).mean
    narrative := "analysis" }

/-- Witness for C5 at `dfW5` with a 20% increase: the perfectly correlated
column `y` appears in the impact set, with correlation `1` and estimated
impact `20` percent. -/
theorem c5_impact_set_witness :
    (∃ rc ic, ("y", rc, ic) ∈ rptW5.impacts) ∧
    (∀ rc ic, ("y", rc, ic) ∈ rptW5.impacts → rc = 1 ∧ ic = 20) := by
  have hmain := c5_impact_set dfW5 "x" 20 true okAz rptW5 [some 1, some 2, some 3]
    (by decide) rfl rfl "y" (ColData.num [some 2, some 4, some 6])
    (List.mem_cons_of_mem _ (List.mem_cons_self _ _)) (by decide) rfl
  simp only [numVals] at hmain
  constructor
  · apply hmain.1.2
    rw [corr_xy_one]
    norm_num
  · intro rc ic hin
    rcases hmain.2 rc ic hin with ⟨h1, h2⟩
    constructor
    · rw [h1, corr_xy_one]
    · rw [h2, corr_xy_one]
      norm_num

/-- The spec's presentation contract for the impact list: each tuple's
absolute correlation is at least that of every later tuple (descending
order by `|correlation|`). -/
def ImpactsSortedByAbsCorr (l : List (String × ℝ × ℝ)) : Prop :=
  l.Pairwise (fun p q => |q.2.1| ≤ |p.2.1|)

/-- The C3 counterexample dataset: target `t`; `a` has correlation
`√3/2 ≈ 0.866` with `t`, `b = 2t` has correlation `1`; `a` precedes `b` in
column order. -/
def dfC3 : DataFrame :=
  ⟨[("t", .num [some 1, some 2, some 3]),
    ("a", .num [some 1, some 1, some 2]),
    ("b", .num [some 2, some 4, some 6])]⟩

/-- The report produced on `dfC3` by a 10% increase of `t`. -/
noncomputable def rptC3 : WhatIfReport :=
  { originalStats := colStats [some 1, some 2, some 3]
    newStats := colStats
      (List.map (Option.map (fun x => x * (1 + (10 : ℚ) / 100))) [some 1, some 2, some 3])
    statsChanges := statChanges (colStats [some 1, some 2, some 3])
      (colStats (List.map (Option.map (fun x => x * (1 + (10 : ℚ) / 100)))
        [some 1, some 2, some 3]))
    impacts := impactsFor dfC3 "t" "Percentage Increase" 10 [some 1, some 2, some 3]
      (colStats [some 1, some 2, some 3]).mean
    narrative := "analysis" }

lemma corrKeep_ta : corrKeep [some 1, some 2, some 3] [some 1, some 1, some 2] = true := by
  have hps : paired [some 1, some 2, some 3] [some 1, some 1, some 2]
      = [((1 : ℚ), (1 : ℚ)), (2, 1), (3, 2)] := rfl
  simp only [corrKeep, hps, Bool.and_eq_true, decide_eq_true_eq]
  norm_num [svarList, scovList, meanList]

lemma corrKeep_tb : corrKeep [some 1, some 2, some 3] [some 2, some 4, some 6] = true := by
  have hps : paired [some 1, some 2, some 3] [some 2, some 4, some 6]
      = [((1 : ℚ), (2 : ℚ)), (2, 4), (3, 6)] := rfl
  simp only [corrKeep, hps, Bool.and_eq_true, decide_eq_true_eq]
  norm_num [svarList, scovList, meanList]

lemma corr_ta_lt_one : |corr [some 1, some 2, some 3] [some 1, some 1, some 2]| < 1 := by
  have hps : paired [some 1, some 2, some 3] [some 1, some 1, some 2]
      = [((1 : ℚ), (1 : ℚ)), (2, 1), (3, 2)] := rfl
  have h1 : svarList (List.map Prod.fst [((1 : ℚ), (1 : ℚ)), (2, 1), (3, 2)]) = 1 := by
    norm_num [svarList, meanList]
  have h2 : svarList (List.map Prod.snd [((1 : ℚ), (1 : ℚ)), (2, 1), (3, 2)]) = 1 / 3 := by
    norm_num [svarList, meanList]
  have h3 : scovList [((1 : ℚ), (1 : ℚ)), (2, 1), (3, 2)] = 1 / 2 := by
    norm_num [scovList, meanList]
  simp only [corr, hps, h1, h2, h3]
  rw [show ((1 : ℚ) : ℝ) = 1 by norm_num, show (((1 : ℚ) / 3 : ℚ) : ℝ) = 1 / 3 by norm_num,
    show (((1 : ℚ) / 2 : ℚ) : ℝ) = 1 / 2 by norm_num, Real.sqrt_one, one_mul]
  have hs : (1 : ℝ) / 2 < Real.sqrt (1 / 3) := by
    rw [Real.lt_sqrt (by norm_num)]
    norm_num
  have hspos : (0 : ℝ) < Real.sqrt (1 / 3) := lt_trans (by norm_num) hs
  rw [abs_div, abs_of_pos hspos, div_lt_one hspos]
  calc |(1 : ℝ) / 2| = 1 / 2 := by norm_num
    _ < Real.sqrt (1 / 3) := hs

lemma rptC3_impacts :
    rptC3.impacts =
      [("a", corr [some 1, some 2, some 3] [some 1, some 1, some 2],
        estImpact "Percentage Increase" 10 (colStats [some 1, some 2, some 3]).mean
          (corr [some 1, some 2, some 3] [some 1, some 1, some 2])),
       ("b", corr [some 1, some 2, some 3] [some 2, some 4, some 6],
        estImpact "Percentage Increase" 10 (colStats [some 1, some 2, some 3]).mean
          (corr [some 1, some 2, some 3] [some 2, some 4, some 6]))] := by
  simp only [rptC3, impactsFor, dfC3, List.filterMap_cons, List.filterMap_nil,
    numVals, isNumCol, corrKeep_ta, corrKeep_tb]
  norm_num
  rw [if_neg (show ¬("a" = "t") by decide), if_neg (show ¬("b" = "t") by decide)]

/-- Counterexample to C3 as stated.  On `dfC3` (columns `t`, `a`, `b` in
that order, `|corr(t,a)| = √3/2 < 1 = |corr(t,b)|`) the impact list of a
valid 10% increase of `t` is `[a, b]` — ascending, not descending, absolute
correlation: the source stores impacts in a dict keyed in dataset column
order and never sorts. -/
theorem c3_counterexample :
    run_what_if dfC3 ⟨"t", "Percentage Increase", 10⟩ okAz = WhatIfResult.report rptC3 ∧
    ¬ ImpactsSortedByAbsCorr rptC3.impacts := by
  refine ⟨rfl, ?_⟩
  intro hsort
  rw [ImpactsSortedByAbsCorr, rptC3_impacts] at hsort
  rcases List.pairwise_cons.1 hsort with ⟨hhead, _⟩
  have h := hhead _ (List.mem_cons_self _ _)
  dsimp only at h
  rw [corr_xy_one, abs_one] at h
  have h2 := corr_ta_lt_one
  linarith

lemma impactsFor_map_fst (cols : List (String × ColData)) (col ct : String)
    (v : ℚ) (lt : List (Option ℚ)) (bm : ℚ) :
    ((cols.filterMap (fun p =>
      if p.1 ≠ col ∧ isNumCol p.2 = true then
        (if corrKeep lt (numVals p.2) = true then
          some (p.1, corr lt (numVals p.2), estImpact ct v bm (corr lt (numVals p.2)))
        else none)
      else none)).map Prod.fst)
    = (cols.filter (fun p =>
        decide (p.1 ≠ col) && isNumCol p.2 && corrKeep lt (numVals p.2))).map Prod.fst := by
  induction cols with
  | nil => rfl
  | cons p rest ih =>
    rw [List.filterMap_cons, List.filter_cons]
    by_cases h1 : p.1 ≠ col ∧ isNumCol p.2 = true
    · by_cases h2 : corrKeep lt (numVals p.2) = true
      · rw [if_pos h1, if_pos h2,
          show (decide (p.1 ≠ col) && isNumCol p.2 && corrKeep lt (numVals p.2)) = true by
            simp [h1.1, h1.2, h2]]
        simp [ih]
      · rw [if_pos h1, if_neg h2,
          show (decide (p.1 ≠ col) && isNumCol p.2 && corrKeep lt (numVals p.2)) = false by
            simp [Bool.eq_false_iff.2 h2]]
        simpa using ih
    · rw [if_neg h1,
        show (decide (p.1 ≠ col) && isNumCol p.2 && corrKeep lt (numVals p.2)) = false by
          rcases not_and_or.1 h1 with h3 | h3
          · simp [not_not.1 h3]
          · simp [Bool.eq_false_iff.2 h3]]
      simpa using ih

/-- C3, amended: the impact tuples of a valid modification appear in
dataset column order — their names are exactly the numeric non-target
columns passing the materiality test, in the order the dataset lists them
(in particular a sublist of the column-name sequence) — not sorted by
descending absolute correlation. -/
theorem c3_impacts_in_column_order (df : DataFrame) (m : Modification)
    (az : DatasetProfile → Except String String) (r : WhatIfReport)
    (lt : List (Option ℚ))
    (ht : DataFrame.find? df m.column = some (ColData.num lt))
    (h : run_what_if df m az = WhatIfResult.report r) :
    r.impacts.map Prod.fst
      = (df.cols.filter (fun p =>
          decide (p.1 ≠ m.column) && isNumCol p.2 && corrKeep lt (numVals p.2))).map Prod.fst ∧
    List.Sublist (r.impacts.map Prod.fst) df.names := by
  rcases run_report_inv df m az r h with ⟨lt2, l2, hf, hm, ho, hn, hc, hi⟩
  have hlt : lt2 = lt := by
    rw [ht] at hf
    exact (ColData.num.inj (Option.some.inj hf)).symm
  rw [hlt] at hi
  have heq : r.impacts.map Prod.fst
      = (df.cols.filter (fun p =>
          decide (p.1 ≠ m.column) && isNumCol p.2 && corrKeep lt (numVals p.2))).map Prod.fst := by
    rw [hi]
    exact impactsFor_map_fst df.cols m.column m.change_type m.value lt (colStats lt).mean
  refine ⟨heq, ?_⟩
  rw [heq]
  exact (List.filter_sublist _).map Prod.fst

/-- Witness for the amended C3 at `dfC3`: the impact names are `[a, b]`,
the dataset's own column order. -/
theorem c3_impacts_in_column_order_witness :
    rptC3.impacts.map Prod.fst = ["a", "b"] ∧
    List.Sublist (rptC3.impacts.map Prod.fst) dfC3.names := by
  have hmain := c3_impacts_in_column_order dfC3 ⟨"t", "Percentage Increase", 10⟩ okAz rptC3
    [some 1, some 2, some 3] rfl rfl
  have hset : (dfC3.cols.filter (fun p =>
      decide (p.1 ≠ "t") && isNumCol p.2
        && corrKeep [some 1, some 2, some 3] (numVals p.2))).map Prod.fst
      = ["a", "b"] := by
    simp only [dfC3, List.filter_cons, List.filter_nil, numVals, isNumCol,
      corrKeep_ta, corrKeep_tb]
    norm_num
    rw [if_neg (show ¬("a" = "t") by decide), if_neg (show ¬("b" = "t") by decide)]
    rfl
  exact ⟨hmain.1.trans hset, hmain.2⟩

/-- The C2 failing input: target column `x` with baseline mean `0` (and
nonzero variance, so the correlation with `y` is defined and equals `1`),
plus a correlated column `y`. -/
def dfC2 : DataFrame :=
  ⟨[("x", .num [some (-1), some 1]), ("y", .num [some 1, some 2])]⟩

/-- The report produced on `dfC2` by `Set to Value 5` on `x`. -/
noncomputable def rptC2 : WhatIfReport :=
  { originalStats := colStats [some (-1), some 1]
    newStats := colStats (List.replicate 2 (some (5 : ℚ)))
    statsChanges := statChanges (colStats [some (-1), some 1])
      (colStats (List.replicate 2 (some (5 : ℚ))))
    impacts := impactsFor dfC2 "x" "Set to Value" 5 [some (-1), some 1]
      (colStats [some (-1), some 1]).mean
    narrative := "analysis" }

lemma corrKeep_c2 : corrKeep [some (-1), some 1] [some 1, some 2] = true := by
  have hps : paired [some (-1), some 1] [some 1, some 2]
      = [((-1 : ℚ), (1 : ℚ)), (1, 2)] := rfl
  simp only [corrKeep, hps, Bool.and_eq_true, decide_eq_true_eq]
  norm_num [svarList, scovList, meanList]

lemma corr_c2 : corr [some (-1), some 1] [some 1, some 2] = 1 := by
  have hps : paired [some (-1), some 1] [some 1, some 2]
      = [((-1 : ℚ), (1 : ℚ)), (1, 2)] := rfl
  have h1 : svarList (List.map Prod.fst [((-1 : ℚ), (1 : ℚ)), (1, 2)]) = 2 := by
    norm_num [svarList, meanList]
  have h2 : svarList (List.map Prod.snd [((-1 : ℚ), (1 : ℚ)), (1, 2)]) = 1 / 2 := by
    norm_num [svarList, meanList]
  have h3 : scovList [((-1 : ℚ), (1 : ℚ)), (1, 2)] = 1 := by
    norm_num [scovList, meanList]
  simp only [corr, hps, h1, h2, h3]
  rw [show ((2 : ℚ) : ℝ) = 2 by norm_num, show (((1 : ℚ) / 2 : ℚ) : ℝ) = 1 / 2 by norm_num,
    show ((1 : ℚ) : ℝ) = 1 by norm_num]
  rw [← Real.sqrt_mul (by norm_num : (0 : ℝ) ≤ 2)]
  norm_num

lemma meanC2_zero : (colStats [some (-1 : ℚ), some 1]).mean = 0 := by
  norm_num [colStats, qmean, meanList,
    show dropNone [some (-1 : ℚ), some 1] = [(-1 : ℚ), 1] from rfl]

lemma rptC2_impacts : rptC2.impacts = [("y", 1, 0)] := by
  simp only [rptC2, impactsFor, dfC2, List.filterMap_cons, List.filterMap_nil,
    numVals, isNumCol, corrKeep_c2]
  norm_num
  rw [if_neg (show ¬("y" = "x") by decide)]
  rw [corr_c2, meanC2_zero]
  simp only [estImpact]
  rw [if_neg (by decide : ¬("Set to Value" = "Percentage Increase")),
    if_neg (by decide : ¬("Set to Value" = "Percentage Decrease"))]
  norm_num

/-- C2: the code bug at the failing input.  On `dfC2` — whose target column
has baseline mean `0` — a `Set to Value 5` modification succeeds silently:
`run_what_if` returns an ordinary report, with a numeric estimated impact
for `y`, instead of failing or flagging the zero-baseline division.  The
implied percentage change `(5 - 0) / 0 * 100` is computed with no guard
(orchestrator.py line 124; contrast the explicit division-by-zero guard at
lines 100-105): numpy silently yields `inf`, and under the rational model's
`q / 0 = 0` convention the reported impact is `0` — in both semantics a
silently coerced numeric value, never an error or a flag. -/
theorem c2_zero_baseline_silent_impact :
    (colStats [some (-1 : ℚ), some 1]).mean = 0 ∧
    run_what_if dfC2 ⟨"x", "Set to Value", 5⟩ okAz = WhatIfResult.report rptC2 ∧
    rptC2.impacts = [("y", 1, 0)] :=
  ⟨meanC2_zero, rfl, rptC2_impacts⟩
